import Mathlib

/-!
Shallow embedding of the Foto Owl library-lending backend
(`app/models.py`, `app/auth.py`, `app/crud.py`, `app/routers/admin.py`,
`app/routers/user.py`) and proofs about its borrow-request admission,
authentication and authorization logic.

Conventions of the embedding:
- `datetime` values are modelled as integers (minutes); `timedelta` values
  as integer durations in minutes.
- The relational store is a record of three lists (`users`, `books`,
  `borrow_requests`); SQLAlchemy `query(...).filter(...).first()` becomes
  `List.find?` and primary keys are supplied explicitly as `newId`
  arguments.
- A route handler that may mutate the store returns
  `Except ApiError result × DB`: the second component is the store after
  the call, so "state unchanged on error" is a provable statement.
- `HTTPException(status_code=c, detail=d)` becomes `ApiError.http c d`.
-/

deriving instance DecidableEq for Except

namespace FotoOwl

/-- `models.User`: id, unique email, password column (whatever string the
code stores there), admin flag. -/
structure User where
  id : Nat
  email : String
  password : String
  is_admin : Bool
deriving DecidableEq, Repr

/-- `models.Book`. -/
structure Book where
  id : Nat
  title : String
  author : String
  copies : Int
deriving DecidableEq, Repr

/-- `models.BorrowRequest`: the `status` column is a string, `"pending"`
by default, set to `"approved"` by the admin approval route. -/
structure BorrowRequest where
  id : Nat
  user_id : Nat
  book_id : Nat
  start_date : Int
  end_date : Int
  status : String
deriving DecidableEq, Repr

/-- The relational store backing the three ORM models. -/
structure DB where
  users : List User
  books : List Book
  borrow_requests : List BorrowRequest
deriving DecidableEq, Repr

/-- `schemas.UserCreate` request body. -/
structure UserCreate where
  email : String
  password : String
  is_admin : Bool
deriving DecidableEq, Repr

/-- `schemas.BookCreate` request body. -/
structure BookCreate where
  title : String
  author : String
  copies : Int
deriving DecidableEq, Repr

/-- `schemas.BorrowRequestCreate` request body. -/
structure BorrowRequestCreate where
  book_id : Nat
  start_date : Int
  end_date : Int
deriving DecidableEq, Repr

/-- Errors surfaced by the handlers. `http c d` is
`HTTPException(status_code=c, detail=d)`; `integrityError` is the
database unique-constraint violation escaping `db.commit()`;
`typeError` is the `TypeError` raised by JSON payload serialization
escaping `jwt.encode` (see `jwt_encode`). -/
inductive ApiError where
  | http (status_code : Nat) (detail : String)
  | integrityError
  | typeError
deriving DecidableEq, Repr

/-! ### Password hashing (`app/auth.py`, passlib bcrypt context) -/

/-- Modelled from the spec: the Password Hasher (`pwd_context.hash`,
backed by the external passlib/bcrypt library, not part of src/)
"produces a salted, adaptive one-way hash" whose digests are in a
recognizable format. We model a digest as a tagged string carrying the
salt and the password, so that distinct salts give distinct digests and
a digest is never equal to the plaintext it hashes (the tag prefix). -/
def get_password_hash (password : String) (salt : String) : String :=
  "$2b$" ++ salt ++ "$" ++ password

/-- Modelled from the spec: `pwd_context.verify` — "verify(plaintext,
digest) returns whether the plaintext matches"; "malformed digest format
must return false". A digest matches when it is in hash format and its
password component is the plaintext. -/
def verify_password (plain_password : String) (hashed_password : String) : Bool :=
  "$2b$".data.isPrefixOf hashed_password.data &&
    ("$" ++ plain_password).data.isSuffixOf hashed_password.data

/-- `auth.authenticate_user`: look the user up by email and verify the
supplied password against the stored `password` column. -/
def authenticate_user (db : DB) (email : String) (password : String) : Option User :=
  match db.users.find? (fun u => u.email == email) with
  | none => none
  | some user => if verify_password password user.password then some user else none

/-! ### Token issuance and verification (`app/auth.py`, jose JWT) -/

def SECRET_KEY : String := "f7f8bc9e4b1147bfa31e7b2e9b965ba3a1c937a10f9dbfa2f925d19c04eb566b"

/-- The 30-minute constant configured in `auth.py` but never passed to
`create_access_token` (dead configuration). -/
def ACCESS_TOKEN_EXPIRE_MINUTES : Int := 30

/-- The value the source assigns to the `exp` claim: either a `datetime`
(an instant) or a raw `timedelta` (a duration). Both arise in
`create_access_token` because of the conditional-expression grouping
there. -/
inductive ExpVal where
  | instant (t : Int)
  | duration (minutes : Int)
deriving DecidableEq, Repr

/-- A JWT payload: the `sub` claim copied from `data` and the `exp`
claim added by `create_access_token`. -/
structure TokenPayload where
  sub : Option String
  exp : ExpVal
deriving DecidableEq, Repr

/-- The payload built by `auth.create_access_token` before encoding.
The source line is
`expire = datetime.now() + expires_delta if expires_delta else timedelta(minutes=15)`,
which Python groups as
`(datetime.now() + expires_delta) if expires_delta else timedelta(minutes=15)`:
with a truthy `expires_delta` the claim is the instant `now + delta`,
otherwise (`None`, or the falsy zero timedelta) it is the bare
15-minute duration itself, not an instant. -/
def access_token_payload (data_sub : Option String) (now : Int)
    (expires_delta : Option Int) : TokenPayload :=
  { sub := data_sub
    exp := match expires_delta with
      | some d => if d == 0 then ExpVal.duration 15 else ExpVal.instant (now + d)
      | none => ExpVal.duration 15 }

/-- Errors from the external jose library layer. -/
inductive JoseError where
  | notSerializable
deriving DecidableEq, Repr

/-- A signed token: payload claims plus the key that signed it (the
symmetric-key signature is modelled as carrying the key, and
verification as comparing keys). -/
structure SignedToken where
  sub : Option String
  exp : Int
  key : String
deriving DecidableEq, Repr

/-- Modelled from the spec: `jwt.encode` from the external jose library
(not part of src/). It converts a `datetime` value of the `exp` claim to
its integer timestamp and then JSON-serializes the payload; a payload
whose `exp` is a bare `timedelta` is not JSON-serializable, so encoding
raises (`typeError` at the caller). -/
def jwt_encode (p : TokenPayload) (key : String) : Except JoseError SignedToken :=
  match p.exp with
  | ExpVal.instant t => Except.ok { sub := p.sub, exp := t, key := key }
  | ExpVal.duration _ => Except.error JoseError.notSerializable

/-- Modelled from the spec: `jwt.decode` — validates the signature (key
equality in this symmetric-key model) and that the token is not expired
(`now ≤ exp`), and returns the claims. -/
def jwt_decode (t : SignedToken) (key : String) (now : Int) : Option (Option String × Int) :=
  if t.key == key && decide (now ≤ t.exp) then some (t.sub, t.exp) else none

/-- `auth.create_access_token`: build the payload and encode it with
`SECRET_KEY`. -/
def create_access_token (data_sub : Option String) (now : Int)
    (expires_delta : Option Int) : Except JoseError SignedToken :=
  jwt_encode (access_token_payload data_sub now expires_delta) SECRET_KEY

/-- The 401 raised by `auth.get_current_user` on any validation failure. -/
def credentials_exception : ApiError :=
  ApiError.http 401 "Could not validate credentials"

/-- `auth.get_current_user`: decode the token, read the `sub` claim, and
look the user up by id. The source compares the string claim against the
integer id column; SQLite integer affinity casts the text to a number,
so the match is `toString u.id == sid`. -/
def get_current_user (token : SignedToken) (db : DB) (now : Int) : Except ApiError User :=
  match jwt_decode token SECRET_KEY now with
  | none => Except.error credentials_exception
  | some (sub?, _) =>
    match sub? with
    | none => Except.error credentials_exception
    | some sid =>
      match db.users.find? (fun u => toString u.id == sid) with
      | none => Except.error credentials_exception
      | some u => Except.ok u

/-! ### crud.py -/

/-- `crud.get_user_borrow_history`. -/
def get_user_borrow_history (db : DB) (user_id : Nat) : List BorrowRequest :=
  db.borrow_requests.filter (fun r => r.user_id == user_id)

/-- `crud.create_user`: stores `user.password` verbatim in the password
column (the source never calls `get_password_hash` here). The unique
constraint on `email` makes `db.commit()` raise on a duplicate. -/
def crud_create_user (db : DB) (user : UserCreate) (is_admin : Bool)
    (newId : Nat) : Except ApiError User × DB :=
  if db.users.any (fun u => u.email == user.email) then
    (Except.error ApiError.integrityError, db)
  else
    let db_user : User :=
      { id := newId, email := user.email, password := user.password, is_admin := is_admin }
    (Except.ok db_user, { db with users := db.users ++ [db_user] })

/-- The default of `crud.create_user`'s `is_admin` parameter
(`is_admin: bool = True` in the source). -/
def crud_create_user_default_is_admin : Bool := true

/-! ### routers/admin.py -/

/-- `admin.login` (`POST /token`): authenticate, then issue a token with
`{"sub": str(user.id)}` and NO `expires_delta`. A serialization failure
inside `jwt.encode` escapes as an unhandled `TypeError`. -/
def login (email : String) (password : String) (db : DB) (now : Int) :
    Except ApiError SignedToken :=
  match authenticate_user db email password with
  | none => Except.error (ApiError.http 401 "Invalid credentials")
  | some user =>
    match create_access_token (some (toString user.id)) now none with
    | Except.error _ => Except.error ApiError.typeError
    | Except.ok tok => Except.ok tok

/-- `admin.create_admin_user` (`POST /create_admin_user`): reject with
400 when any user with `is_admin = true` exists, otherwise create the
user with `is_admin=True`. -/
def create_admin_user (user : UserCreate) (db : DB) (newId : Nat) :
    Except ApiError User × DB :=
  match db.users.find? (fun u => u.is_admin) with
  | some _ => (Except.error (ApiError.http 400 "An admin already exists."), db)
  | none => crud_create_user db user true newId

/-- `admin.create_user` (`POST /create_user`): admin gate, then
`crud.create_user(db, user=user)` — the request body's `is_admin` field
is not forwarded, so the crud default (`True`) applies. -/
def create_user (user : UserCreate) (current_user : User) (db : DB) (newId : Nat) :
    Except ApiError User × DB :=
  if !current_user.is_admin then
    (Except.error (ApiError.http 403 "Not authorized"), db)
  else
    crud_create_user db user crud_create_user_default_is_admin newId

/-- `admin.view_borrow_requests` (`GET /borrow_requests`). -/
def view_borrow_requests (current_user : User) (db : DB) :
    Except ApiError (List BorrowRequest) × DB :=
  if !current_user.is_admin then
    (Except.error (ApiError.http 403 "Not authorized"), db)
  else
    (Except.ok db.borrow_requests, db)

/-- Replace the status of the first request with the given id by
`"approved"` (the in-place ORM mutation of the object returned by
`.first()`, followed by `commit`). -/
def setApproved : List BorrowRequest → Nat → List BorrowRequest
  | [], _ => []
  | r :: rs, rid =>
    if r.id == rid then { r with status := "approved" } :: rs
    else r :: setApproved rs rid

/-- `admin.approve_request` (`POST /approve_request/:id`): admin gate,
404 when the id is absent, otherwise set the status to `"approved"`
unconditionally (no overlap re-check) and return the updated record. -/
def approve_request (request_id : Nat) (current_user : User) (db : DB) :
    Except ApiError BorrowRequest × DB :=
  if !current_user.is_admin then
    (Except.error (ApiError.http 403 "Not authorized"), db)
  else
    match db.borrow_requests.find? (fun r => r.id == request_id) with
    | none => (Except.error (ApiError.http 404 "Request not found"), db)
    | some br =>
      (Except.ok { br with status := "approved" },
       { db with borrow_requests := setApproved db.borrow_requests request_id })

/-- `admin.view_user_borrow_history` (`GET /user/:id/borrow_history`):
admin gate, then 404 on an empty history. -/
def view_user_borrow_history (user_id : Nat) (current_user : User) (db : DB) :
    Except ApiError (List BorrowRequest) × DB :=
  if !current_user.is_admin then
    (Except.error (ApiError.http 403 "Not authorized"), db)
  else
    let borrow_history := get_user_borrow_history db user_id
    if borrow_history.isEmpty then
      (Except.error (ApiError.http 404 "No borrow history found for this user"), db)
    else
      (Except.ok borrow_history, db)

/-- `admin.add_book` (`POST /add_book`): admin gate, then insert. -/
def add_book (book : BookCreate) (current_user : User) (db : DB) (newId : Nat) :
    Except ApiError Book × DB :=
  if !current_user.is_admin then
    (Except.error (ApiError.http 403 "Not authorized"), db)
  else
    let db_book : Book := { id := newId, title := book.title, author := book.author, copies := book.copies }
    (Except.ok db_book, { db with books := db.books ++ [db_book] })

/-! ### routers/user.py -/

/-- The overlap predicate of `user.borrow_request` Step 2: an approved
request for the same book with `end_date > start` and `start_date < end`
(exclusive half-open overlap). -/
def overlaps (request : BorrowRequestCreate) (r : BorrowRequest) : Bool :=
  r.book_id == request.book_id && r.status == "approved" &&
    decide (request.start_date < r.end_date) && decide (r.start_date < request.end_date)

/-- `user.borrow_request` (`POST /borrow_request`): 404 when the book id
does not resolve, 400 when an approved request overlaps the asked
half-open period, otherwise insert a `"pending"` request for the caller
and return it. No validation of `start_date < end_date` is performed. -/
def borrow_request (request : BorrowRequestCreate) (current_user : User)
    (db : DB) (newId : Nat) : Except ApiError BorrowRequest × DB :=
  match db.books.find? (fun b => b.id == request.book_id) with
  | none => (Except.error (ApiError.http 404 "Book not found"), db)
  | some _ =>
    match db.borrow_requests.find? (fun r => overlaps request r) with
    | some _ =>
      (Except.error (ApiError.http 400 "This book is already borrowed during the requested period"), db)
    | none =>
      let new_request : BorrowRequest :=
        { id := newId, user_id := current_user.id, book_id := request.book_id,
          start_date := request.start_date, end_date := request.end_date,
          status := "pending" }
      (Except.ok new_request, { db with borrow_requests := db.borrow_requests ++ [new_request] })

/-! ### Helper lemmas -/

/-- A `crud_create_user` call never produces an `HTTPException`: it
either succeeds or (on a duplicate email) raises the integrity error. -/
theorem crud_create_user_ne_http (db : DB) (user : UserCreate) (a : Bool)
    (newId : Nat) (c : Nat) (d : String) :
    (crud_create_user db user a newId).1 ≠ Except.error (ApiError.http c d) := by
  unfold crud_create_user
  split <;> simp

/-- The `is_admin` flag of a user successfully inserted by
`crud_create_user` is exactly the `is_admin` argument. -/
theorem crud_create_user_ok_is_admin (db : DB) (user : UserCreate) (a : Bool)
    (newId : Nat) (u : User)
    (h : (crud_create_user db user a newId).1 = Except.ok u) : u.is_admin = a := by
  unfold crud_create_user at h
  split at h
  · simp at h
  · simp at h
    subst h
    rfl

/-- `setApproved` rewrites the request found at `rid` to its approved
version. -/
theorem setApproved_find? (l : List BorrowRequest) (rid : Nat) :
    (setApproved l rid).find? (fun r => r.id == rid) =
      (l.find? (fun r => r.id == rid)).map (fun r => { r with status := "approved" }) := by
  induction l with
  | nil => rfl
  | cons r rs ih =>
    cases h : (r.id == rid) with
    | true => simp [setApproved, h, List.find?_cons_of_pos]
    | false => simp [setApproved, h, List.find?_cons_of_neg, ih]

/-- Approving the same request twice is the same as approving it once. -/
theorem setApproved_idem (l : List BorrowRequest) (rid : Nat) :
    setApproved (setApproved l rid) rid = setApproved l rid := by
  induction l with
  | nil => rfl
  | cons r rs ih =>
    cases h : (r.id == rid) with
    | true => simp [setApproved, h]
    | false => simp [setApproved, h, ih]

/-! ### Concrete fixtures used by the witnesses -/

def u_admin : User := ⟨1, "admin@x", "pw", true⟩

def u_member : User := ⟨2, "member@x", "pw", false⟩

def book_one : Book := ⟨1, "T", "A", 1⟩

def approved_req : BorrowRequest := ⟨1, 1, 1, 10, 20, "approved"⟩

def db_fix : DB := ⟨[u_admin, u_member], [book_one], [approved_req]⟩

/-- A user whose stored password column actually holds a digest, as the
unused `get_password_hash` helper would produce (seeded out of band). -/
def seeded_user : User := ⟨1, "a@b.c", get_password_hash "pw" "SALT", true⟩

def seeded_db : DB := ⟨[seeded_user], [], []⟩

/-! ### Claim theorems -/

/-- C1: for a borrow-request creation on an existing book, the operation
fails with the PeriodConflict error (HTTP 400) if and only if some
existing request with status `"approved"` for that `book_id` satisfies
`R.end_date > start` and `R.start_date < end` — the exclusive half-open
overlap test, so touching endpoints are admitted and pending requests
are never consulted. -/
theorem borrow_request_period_conflict_iff
    (request : BorrowRequestCreate) (current_user : User) (db : DB) (newId : Nat)
    (hbook : (db.books.find? (fun b => b.id == request.book_id)).isSome = true) :
    (borrow_request request current_user db newId).1 =
        Except.error (ApiError.http 400 "This book is already borrowed during the requested period")
      ↔ ∃ r ∈ db.borrow_requests, r.book_id = request.book_id ∧ r.status = "approved" ∧
          request.start_date < r.end_date ∧ r.start_date < request.end_date := by
  obtain ⟨b, hb⟩ := Option.isSome_iff_exists.mp hbook
  cases hov : db.borrow_requests.find? (fun r => overlaps request r) with
  | none =>
    have hres : (borrow_request request current_user db newId).1 =
        Except.ok { id := newId, user_id := current_user.id, book_id := request.book_id,
                    start_date := request.start_date, end_date := request.end_date,
                    status := "pending" } := by
      simp [borrow_request, hb, hov]
    rw [hres]
    constructor
    · intro h
      simp at h
    · rintro ⟨r, hr, h1, h2, h3, h4⟩
      have hov' : overlaps request r = true := by
        simp [overlaps, h1, h2, h3, h4]
      have hfalse := List.find?_eq_none.mp hov r hr
      simp [hov'] at hfalse
  | some r =>
    have hr := List.mem_of_find?_eq_some hov
    have hp : overlaps request r = true := List.find?_some hov
    simp only [overlaps, Bool.and_eq_true, beq_iff_eq, decide_eq_true_eq] at hp
    have hres : (borrow_request request current_user db newId).1 =
        Except.error (ApiError.http 400 "This book is already borrowed during the requested period") := by
      simp [borrow_request, hb, hov]
    rw [hres]
    exact ⟨fun _ => ⟨r, hr, hp.1.1.1, hp.1.1.2, hp.1.2, hp.2⟩, fun _ => rfl⟩

/-- Witness for C1 at the spec's own example: the book exists and an
approved request over `[10, 20)` makes a new request over `[15, 25)`
fail with the period-conflict error. -/
theorem borrow_request_period_conflict_iff_witness :
    ((db_fix.books.find? (fun b => b.id == (1 : Nat))).isSome = true) ∧
    (borrow_request ⟨1, 15, 25⟩ u_member db_fix 2).1 =
      Except.error (ApiError.http 400 "This book is already borrowed during the requested period") :=
  ⟨by decide,
    (borrow_request_period_conflict_iff ⟨1, 15, 25⟩ u_member db_fix 2 (by decide)).mpr
      ⟨approved_req, by decide, by decide, by decide, by decide, by decide⟩⟩

/-- C3: for an admin principal and an existing request id, `approve`
succeeds and sets the status to `"approved"` with no overlap check of
any kind (the theorem quantifies over every store in which the id
resolves), and approving again returns the same approved record and
leaves the store exactly as after the first approval. -/
theorem approve_request_unconditional_idempotent
    (request_id : Nat) (current_user : User) (db : DB)
    (hadmin : current_user.is_admin = true)
    (hex : (db.borrow_requests.find? (fun r => r.id == request_id)).isSome = true) :
    ∃ br, (approve_request request_id current_user db).1 = Except.ok br ∧
      br.status = "approved" ∧
      (approve_request request_id current_user
          (approve_request request_id current_user db).2).1 = Except.ok br ∧
      (approve_request request_id current_user
          (approve_request request_id current_user db).2).2 =
        (approve_request request_id current_user db).2 := by
  obtain ⟨br0, hbr⟩ := Option.isSome_iff_exists.mp hex
  refine ⟨{ br0 with status := "approved" }, ?_, rfl, ?_, ?_⟩ <;>
    simp [approve_request, hadmin, hbr, setApproved_find?, setApproved_idem]

/-- Witness for C3: the admin approves request 1 of the fixture store;
the hypotheses are discharged at that concrete input. -/
theorem approve_request_unconditional_idempotent_witness :
    (u_admin.is_admin = true) ∧
    ((db_fix.borrow_requests.find? (fun r => r.id == (1 : Nat))).isSome = true) ∧
    ∃ br, (approve_request 1 u_admin db_fix).1 = Except.ok br ∧
      br.status = "approved" ∧
      (approve_request 1 u_admin (approve_request 1 u_admin db_fix).2).1 = Except.ok br ∧
      (approve_request 1 u_admin (approve_request 1 u_admin db_fix).2).2 =
        (approve_request 1 u_admin db_fix).2 :=
  ⟨rfl, by decide, approve_request_unconditional_idempotent 1 u_admin db_fix rfl (by decide)⟩

/-- C6: `create_admin_user` fails with AdminAlreadyExists (HTTP 400) if
and only if some user with `is_admin = true` already exists, and on that
failure the store is unchanged (the admin scan precedes any insertion). -/
theorem create_admin_user_iff_admin_exists (user : UserCreate) (db : DB) (newId : Nat) :
    ((create_admin_user user db newId).1 =
        Except.error (ApiError.http 400 "An admin already exists.") ↔
      ∃ u ∈ db.users, u.is_admin = true) ∧
    ((∃ u ∈ db.users, u.is_admin = true) → (create_admin_user user db newId).2 = db) := by
  cases hf : db.users.find? (fun u => u.is_admin) with
  | none =>
    have h400 := crud_create_user_ne_http db user true newId 400 "An admin already exists."
    constructor
    · simp only [create_admin_user, hf]
      constructor
      · intro h
        exact absurd h h400
      · rintro ⟨u, hu, hadm⟩
        have := List.find?_eq_none.mp hf u hu
        simp [hadm] at this
    · rintro ⟨u, hu, hadm⟩
      have := List.find?_eq_none.mp hf u hu
      simp [hadm] at this
  | some u =>
    have hmem := List.mem_of_find?_eq_some hf
    have hadm : u.is_admin = true := List.find?_some hf
    constructor
    · simp only [create_admin_user, hf]
      exact ⟨fun _ => ⟨u, hmem, hadm⟩, fun _ => by trivial⟩
    · intro _
      simp [create_admin_user, hf]

/-- Witness for C6: with the fixture store (which holds an admin), the
call fails with the 400 error and leaves the store untouched. -/
theorem create_admin_user_iff_admin_exists_witness :
    (create_admin_user ⟨"x@y", "pw", true⟩ db_fix 9).1 =
        Except.error (ApiError.http 400 "An admin already exists.") ∧
    (create_admin_user ⟨"x@y", "pw", true⟩ db_fix 9).2 = db_fix :=
  ⟨(create_admin_user_iff_admin_exists ⟨"x@y", "pw", true⟩ db_fix 9).1.mpr
      ⟨u_admin, by decide, rfl⟩,
    (create_admin_user_iff_admin_exists ⟨"x@y", "pw", true⟩ db_fix 9).2
      ⟨u_admin, by decide, rfl⟩⟩

/-- C7: a principal with `is_admin = false` is rejected with Forbidden
(HTTP 403) by every privileged operation — `add_book`,
`approve_request`, `create_user`, `view_borrow_requests`,
`view_user_borrow_history` — and the store is returned unchanged, for
every store and every argument (the gate precedes any mutation). -/
theorem non_admin_forbidden_unchanged
    (current_user : User) (hcu : current_user.is_admin = false)
    (db : DB) (book : BookCreate) (body : UserCreate) (rid uid newId : Nat) :
    add_book book current_user db newId =
      (Except.error (ApiError.http 403 "Not authorized"), db) ∧
    approve_request rid current_user db =
      (Except.error (ApiError.http 403 "Not authorized"), db) ∧
    create_user body current_user db newId =
      (Except.error (ApiError.http 403 "Not authorized"), db) ∧
    view_borrow_requests current_user db =
      (Except.error (ApiError.http 403 "Not authorized"), db) ∧
    view_user_borrow_history uid current_user db =
      (Except.error (ApiError.http 403 "Not authorized"), db) := by
  simp [add_book, approve_request, create_user, view_borrow_requests,
    view_user_borrow_history, hcu]

/-- Witness for C7: the fixture's non-admin member is rejected by all
five privileged operations on the fixture store. -/
theorem non_admin_forbidden_unchanged_witness :
    (u_member.is_admin = false) ∧
    (add_book ⟨"T2", "A2", 1⟩ u_member db_fix 2 =
      (Except.error (ApiError.http 403 "Not authorized"), db_fix) ∧
    approve_request 1 u_member db_fix =
      (Except.error (ApiError.http 403 "Not authorized"), db_fix) ∧
    create_user ⟨"x@y", "pw", false⟩ u_member db_fix 9 =
      (Except.error (ApiError.http 403 "Not authorized"), db_fix) ∧
    view_borrow_requests u_member db_fix =
      (Except.error (ApiError.http 403 "Not authorized"), db_fix) ∧
    view_user_borrow_history 1 u_member db_fix =
      (Except.error (ApiError.http 403 "Not authorized"), db_fix)) :=
  ⟨rfl, non_admin_forbidden_unchanged u_member rfl db_fix ⟨"T2", "A2", 1⟩ ⟨"x@y", "pw", false⟩ 1 1 2⟩

/-- C8: borrow-request creation fails with BookNotFound (HTTP 404) if
and only if the book id does not resolve in the catalog (so the book
check precedes the overlap check: a missing book gives 404 even when
approved overlaps exist), the store is unchanged on that failure, and
every successful creation returns exactly the record
`{id := newId, user_id := caller, book_id, start_date, end_date,
status := "pending"}` and appends it to the ledger. -/
theorem borrow_request_not_found_and_success_spec
    (request : BorrowRequestCreate) (current_user : User) (db : DB) (newId : Nat) :
    ((borrow_request request current_user db newId).1 =
        Except.error (ApiError.http 404 "Book not found") ↔
      db.books.find? (fun b => b.id == request.book_id) = none) ∧
    (db.books.find? (fun b => b.id == request.book_id) = none →
      (borrow_request request current_user db newId).2 = db) ∧
    (∀ br, (borrow_request request current_user db newId).1 = Except.ok br →
      br = { id := newId, user_id := current_user.id, book_id := request.book_id,
             start_date := request.start_date, end_date := request.end_date,
             status := "pending" } ∧
      (borrow_request request current_user db newId).2 =
        { db with borrow_requests := db.borrow_requests ++ [br] }) := by
  cases hb : db.books.find? (fun b => b.id == request.book_id) with
  | none =>
    refine ⟨by simp [borrow_request, hb], fun _ => by simp [borrow_request, hb], ?_⟩
    intro br hbr
    simp [borrow_request, hb] at hbr
  | some b =>
    cases hov : db.borrow_requests.find? (fun r => overlaps request r) with
    | some r =>
      refine ⟨?_, ?_, ?_⟩
      · simp [borrow_request, hb, hov]
      · intro h
        exact Option.noConfusion h
      · intro br hbr
        simp [borrow_request, hb, hov] at hbr
    | none =>
      refine ⟨?_, ?_, ?_⟩
      · simp [borrow_request, hb, hov]
      · intro h
        exact Option.noConfusion h
      · intro br hbr
        simp only [borrow_request, hb, hov] at hbr ⊢
        simp at hbr
        subst hbr
        exact ⟨rfl, rfl⟩

/-- Witness for C8: on the fixture store, a request over the touching
range `[20, 25)` succeeds and the returned record is the pending record
for the member, appended to the ledger. -/
theorem borrow_request_not_found_and_success_spec_witness :
    (borrow_request ⟨1, 20, 25⟩ u_member db_fix 2).1 =
        Except.ok { id := 2, user_id := 2, book_id := 1, start_date := 20,
                    end_date := 25, status := "pending" } ∧
    (borrow_request ⟨1, 20, 25⟩ u_member db_fix 2).2 =
      { db_fix with borrow_requests := db_fix.borrow_requests ++
          [{ id := 2, user_id := 2, book_id := 1, start_date := 20,
             end_date := 25, status := "pending" }] } :=
  ⟨by decide,
    ((borrow_request_not_found_and_success_spec ⟨1, 20, 25⟩ u_member db_fix 2).2.2
      { id := 2, user_id := 2, book_id := 1, start_date := 20,
        end_date := 25, status := "pending" } (by decide)).2⟩

/-- C9: no date-ordering validation is performed — for any inverted or
zero-length range (`end_date ≤ start_date`), when the book exists and no
approved request overlaps under the overlap test, the request is
admitted and stored as `"pending"` rather than rejected. -/
theorem borrow_request_accepts_inverted_range
    (request : BorrowRequestCreate) (current_user : User) (db : DB) (newId : Nat)
    (hinv : request.end_date ≤ request.start_date)
    (hbook : (db.books.find? (fun b => b.id == request.book_id)).isSome = true)
    (hnoov : db.borrow_requests.find? (fun r => overlaps request r) = none) :
    (borrow_request request current_user db newId).1 =
      Except.ok { id := newId, user_id := current_user.id, book_id := request.book_id,
                  start_date := request.start_date, end_date := request.end_date,
                  status := "pending" } ∧
    (borrow_request request current_user db newId).2 =
      { db with borrow_requests := db.borrow_requests ++
          [{ id := newId, user_id := current_user.id, book_id := request.book_id,
             start_date := request.start_date, end_date := request.end_date,
             status := "pending" }] } := by
  obtain ⟨b, hb⟩ := Option.isSome_iff_exists.mp hbook
  -- the ordering hypothesis `hinv` is deliberately never consulted:
  -- the handler has no branch reading it
  clear hinv
  constructor <;> simp [borrow_request, hb, hnoov]

/-- Witness for C9: the inverted range `[25, 15)` on the existing book
of the fixture store is admitted as a pending request. -/
theorem borrow_request_accepts_inverted_range_witness :
    ((15 : Int) ≤ 25) ∧
    (borrow_request ⟨1, 25, 15⟩ u_member db_fix 2).1 =
      Except.ok { id := 2, user_id := 2, book_id := 1, start_date := 25,
                  end_date := 15, status := "pending" } :=
  ⟨by decide,
    (borrow_request_accepts_inverted_range ⟨1, 25, 15⟩ u_member db_fix 2
      (by decide) (by decide) (by decide)).1⟩

/-- C10: every user created through the admin-authenticated
`create_user` route is stored with `is_admin = true`, whatever
`is_admin` value the request body carries: the route does not forward
the body's flag and `crud.create_user` defaults it to `True`. -/
theorem create_user_forces_admin_flag
    (body : UserCreate) (current_user : User) (db : DB) (newId : Nat)
    (hcu : current_user.is_admin = true) :
    ∀ u, (create_user body current_user db newId).1 = Except.ok u → u.is_admin = true := by
  intro u hu
  have : (create_user body current_user db newId).1 =
      (crud_create_user db body crud_create_user_default_is_admin newId).1 := by
    simp [create_user, hcu]
  rw [this] at hu
  exact crud_create_user_ok_is_admin db body crud_create_user_default_is_admin newId u hu

/-- Witness for C10: the admin submits a body with `is_admin = false`,
yet the created user record carries `is_admin = true`. -/
theorem create_user_forces_admin_flag_witness :
    (create_user ⟨"x@y", "pw", false⟩ u_admin db_fix 9).1 =
        Except.ok { id := 9, email := "x@y", password := "pw", is_admin := true } ∧
    User.is_admin { id := 9, email := "x@y", password := "pw", is_admin := true } = true :=
  ⟨by decide,
    create_user_forces_admin_flag ⟨"x@y", "pw", false⟩ u_admin db_fix 9 rfl
      { id := 9, email := "x@y", password := "pw", is_admin := true } (by decide)⟩

/-- C2 (code bug): `crud.create_user` stores the supplied plaintext
password verbatim (it never calls `get_password_hash`), so the user
record created by the admin-bootstrap route holds `"pw"` itself, and a
subsequent `authenticate_user` with the same email and password fails —
the bcrypt verifier finds no digest-format value to match. The last
conjunct shows the verifier does accept a properly hashed digest, so
the failure is exactly the missing hash at creation. -/
theorem create_user_stores_plaintext_login_fails :
    (create_admin_user ⟨"a@b.c", "pw", true⟩ ⟨[], [], []⟩ 1).1 =
        Except.ok { id := 1, email := "a@b.c", password := "pw", is_admin := true } ∧
    authenticate_user (create_admin_user ⟨"a@b.c", "pw", true⟩ ⟨[], [], []⟩ 1).2
        "a@b.c" "pw" = none ∧
    verify_password "pw" (get_password_hash "pw" "SALT") = true :=
  ⟨by decide, by decide, by decide⟩

/-- C4 (code bug): `create_access_token` called without `expires_delta`
(as `login` calls it) does not set the `exp` claim to issuance time plus
15 minutes: by the grouping of the conditional expression it assigns the
bare 15-minute `timedelta`, which is not the instant `now + 15` and is
not even JSON-serializable, so encoding fails instead of producing a
verifiable token. With an explicit delta the claim is the expected
instant. -/
theorem create_access_token_default_exp_bug :
    (access_token_payload (some "1") 1000 none).exp = ExpVal.duration 15 ∧
    ExpVal.duration 15 ≠ ExpVal.instant (1000 + 15) ∧
    create_access_token (some "1") 1000 none = Except.error JoseError.notSerializable ∧
    (access_token_payload (some "1") 1000 (some 15)).exp = ExpVal.instant 1015 :=
  ⟨rfl, by decide, rfl, rfl⟩

/-- C5 (code bug): the subject round-trip fails on the login path. For a
user whose stored credential is a genuine digest, `login` still cannot
issue a token — `create_access_token` is called with no ttl, so the
`exp` claim is the bare timedelta and encoding raises — hence no fresh
login token exists whose verification resolves the logged-in user. The
remaining conjuncts show the round trip does hold for a token issued
with an explicit ttl: decoding it yields the `sub` claim `"1"` and
`get_current_user` resolves it back to the same user. -/
theorem login_token_roundtrip_broken :
    login "a@b.c" "pw" seeded_db 1000 = Except.error ApiError.typeError ∧
    create_access_token (some "1") 1000 (some 15) =
        Except.ok { sub := some "1", exp := 1015, key := SECRET_KEY } ∧
    get_current_user { sub := some "1", exp := 1015, key := SECRET_KEY }
        seeded_db 1000 = Except.ok seeded_user :=
  ⟨by decide, by decide, by decide⟩

end FotoOwl
